import Mathlib

/-!
Shallow embedding of the Tavily MCP server (server.py and app/server.py):
parameter validation, adaptive timeout estimation, request normalization,
the tiered fallback orchestrator, and the tool wrappers.  The upstream
Tavily client is modelled as an oracle; a raised Python exception is
modelled as an Except.error carrying the exception class name and its
str() message.
-/

/-- A Python exception, reduced to its class name and its str() message. -/
structure PyErr where
  ty : String
  msg : String
deriving DecidableEq

/-- A Python value that is either a bool or a string
(the type of include_answer and include_raw_content). -/
inductive BoolStr where
  | b (bv : Bool)
  | s (sv : String)
deriving DecidableEq

/-- Python truthiness of a bool-or-string value. -/
def BoolStr.truthy : BoolStr → Bool
  | .b bv => bv
  | .s sv => sv != ""

/-- Whether pat occurs as a contiguous run inside the character list. -/
def charsContain (pat : List Char) : List Char → Bool
  | [] => pat.isEmpty
  | c :: rest => pat.isPrefixOf (c :: rest) || charsContain pat rest

/-- Python substring test: pat in s. -/
def strContains (s pat : String) : Bool := charsContain pat.toList s.toList

/-- Python str.lower, expressed over the character list so that it
evaluates by kernel reduction. -/
def lowerStr (s : String) : String := String.mk (s.toList.map Char.toLower)

/-- The kwargs dict handed to tavily_client.search.  A field holds none
when the corresponding key is absent from the dict; the timeout key can
be present with a None value, hence Option (Option Int). -/
structure Kwargs where
  query : Option String
  search_depth : Option String
  topic : Option String
  auto_parameters : Option Bool
  max_results : Option Int
  include_images : Option Bool
  include_image_descriptions : Option Bool
  include_answer : Option BoolStr
  include_raw_content : Option BoolStr
  include_domains : Option (List String)
  exclude_domains : Option (List String)
  timeout : Option (Option Int)
  include_favicon : Option Bool
  days : Option Int
  time_range : Option String
  start_date : Option String
  end_date : Option String
  chunks_per_source : Option Int
  country : Option String
deriving DecidableEq

/-- validate_search_params from server.py: returns the message of the
TavilyValidationError it would raise, or none when validation passes. -/
def validate_search_params (search_depth : String) (chunks_per_source : Option Int)
    (max_results : Int) (topic : String) (country : Option String) : Option String :=
  if max_results < 0 || max_results > 20 then
    some ("max_results must be between 0 and 20, got " ++ toString max_results ++
      ". Use 5-10 for most searches, 15-20 for comprehensive research.")
  else if (match chunks_per_source with
           | some _ => search_depth != "advanced"
           | none => false) then
    some ("chunks_per_source only available with search_depth=\x27advanced\x27, got search_depth=\x27"
      ++ search_depth ++ "\x27. Either set search_depth=\x27advanced\x27 or remove chunks_per_source parameter.")
  else if (match chunks_per_source with
           | some c => c < 1 || c > 3
           | none => false) then
    some ("chunks_per_source must be between 1 and 3, got "
      ++ (match chunks_per_source with | some c => toString c | none => "") ++
      ". Use 1 for brief snippets, 3 for detailed content extraction.")
  else if country.isSome && topic != "general" then
    some ("country parameter only available with topic=\x27general\x27, got topic=\x27" ++ topic ++
      "\x27. Use topic=\x27general\x27 for country-specific searches, or remove country parameter.")
  else
    none

/-- calculate_optimal_timeout from server.py. -/
def calculate_optimal_timeout (search_depth : String) (include_raw_content : BoolStr)
    (max_results : Int) (auto_parameters : Bool) : Int :=
  let base_timeout : Int := 60
  let base_timeout := if search_depth = "advanced" then base_timeout + 30 else base_timeout
  let base_timeout := if auto_parameters then base_timeout + 20 else base_timeout
  let base_timeout := if include_raw_content.truthy then base_timeout + 20 else base_timeout
  let base_timeout :=
    if max_results > 10 then base_timeout + 15
    else if max_results > 15 then base_timeout + 25
    else base_timeout
  min base_timeout 180

/-- create_fallback_search_params from server.py. -/
def create_fallback_search_params (original_params : Kwargs) : Kwargs :=
  let fallback_params := { original_params with
    search_depth := some "basic", auto_parameters := some false }
  let fallback_params := { fallback_params with
    max_results := some (min (fallback_params.max_results.getD 5) 5) }
  let fallback_params := { fallback_params with chunks_per_source := none }
  let fallback_params :=
    if ((fallback_params.include_raw_content.getD (BoolStr.b false)).truthy) then
      { fallback_params with include_raw_content := some (BoolStr.b false) }
    else fallback_params
  let fallback_params :=
    if fallback_params.include_answer = some (BoolStr.s "advanced") then
      { fallback_params with include_answer := some (BoolStr.s "basic") }
    else fallback_params
  fallback_params

/-- The minimal-search params dict built at the last rung of the ladder:
exactly the keys query, search_depth, max_results and timeout. -/
def minimalSearchParams (sp : Kwargs) : Kwargs where
  query := sp.query
  search_depth := some "basic"
  topic := none
  auto_parameters := none
  max_results := some 3
  include_images := none
  include_image_descriptions := none
  include_answer := none
  include_raw_content := none
  include_domains := none
  exclude_domains := none
  timeout := some (some 30)
  include_favicon := none
  days := none
  time_range := none
  start_date := none
  end_date := none
  chunks_per_source := none
  country := none

/-- The params dict dispatched at a given attempt of the retry loop:
attempt 0 sends the original dict, attempt 1 the reduced-complexity
variant, later attempts the minimal variant. -/
def rungParams (sp : Kwargs) : Nat → Kwargs
  | 0 => sp
  | 1 => create_fallback_search_params sp
  | _ + 2 => minimalSearchParams sp

/-- Quota classification of a caught exception: any of the keywords
occurs in the lowercased message. -/
def isQuotaError (e : PyErr) : Bool :=
  ["credit", "quota", "limit", "billing"].any (fun k => strContains (lowerStr e.msg) k)

/-- str(last_error): the loop variable starts as Python None. -/
def lastErrorStr : Option PyErr → String
  | none => "None"
  | some e => e.msg

/-- type(last_error).__name__ for the terminal failure payload. -/
def lastErrorTy : Option PyErr → String
  | none => "NoneType"
  | some e => e.ty

def quotaSuggestionText : String :=
  "Check your Tavily API usage limits and billing status. Try using search_depth=\x27basic\x27 to reduce credit consumption."

def quotaFallbackText : String :=
  "Use qna_search for simple questions to save credits"

def failSuggestionText : String :=
  "Try simplifying your query or using qna_search for basic questions"

/-- The dict returned by robust_tavily_search_with_fallback: a provider
payload (possibly tagged with the fallback tier and the stored error), the
QuotaExceeded payload, or the all-attempts-failed payload. -/
inductive SearchOutcome where
  | ok (payload : String) (fallbackUsed : Option String) (originalError : Option String)
  | quota (error : String) (error_type : String) (suggestion : String) (fallback_action : String)
  | failed (error : String) (error_type : String) (attempts : Nat) (suggestion : String)
deriving DecidableEq

/-- The timeout-resolution step at the top of
robust_tavily_search_with_fallback: when the timeout key is absent or
holds None, store the computed optimal timeout. -/
def resolveTimeout (searchParams : Kwargs) : Kwargs :=
  let optimal_timeout := calculate_optimal_timeout
    (searchParams.search_depth.getD "basic")
    (searchParams.include_raw_content.getD (BoolStr.b false))
    (searchParams.max_results.getD 5)
    (searchParams.auto_parameters.getD false)
  match searchParams.timeout with
  | none => { searchParams with timeout := some (some optimal_timeout) }
  | some none => { searchParams with timeout := some (some optimal_timeout) }
  | some (some _) => searchParams

/-- The retry loop of robust_tavily_search_with_fallback.  The oracle
maps the attempt index to what tavily_client.search does on that call;
fuel counts the loop iterations left (the source iterates over
range(max_retries + 1)).  Returns the outcome together with the list of
params dicts actually dispatched upstream. -/
def robustLoop (oracle : Nat → Except PyErr String) (sp : Kwargs) (maxRetries : Nat) :
    Nat → Nat → Option PyErr → List Kwargs → SearchOutcome × List Kwargs
  | 0, _, lastError, trace =>
    (.failed ("All search attempts failed: " ++ lastErrorStr lastError)
      (lastErrorTy lastError) (maxRetries + 1) failSuggestionText, trace)
  | fuel + 1, attempt, lastError, trace =>
    let params := rungParams sp attempt
    let trace := trace ++ [params]
    match oracle attempt with
    | .ok payload =>
      if attempt = 0 then (.ok payload none none, trace)
      else if attempt = 1 then
        (.ok payload (some "reduced_complexity") (some (lastErrorStr lastError)), trace)
      else
        (.ok payload (some "minimal_search") (some (lastErrorStr lastError)), trace)
    | .error e =>
      if isQuotaError e then
        (.quota ("API quota/credit limit reached: " ++ e.msg) "QuotaExceeded"
          quotaSuggestionText quotaFallbackText, trace)
      else
        robustLoop oracle sp maxRetries fuel (attempt + 1) (some e) trace

/-- robust_tavily_search_with_fallback from server.py. -/
def robust_tavily_search_with_fallback (oracle : Nat → Except PyErr String)
    (searchParams : Kwargs) (maxRetries : Nat) : SearchOutcome × List Kwargs :=
  let sp := resolveTimeout searchParams
  robustLoop oracle sp maxRetries (maxRetries + 1) 0 none []

/-- The argument list of the tavily_search tool. -/
structure TavilySearchArgs where
  query : String
  search_depth : String
  topic : String
  auto_parameters : Bool
  days : Option Int
  time_range : Option String
  start_date : Option String
  end_date : Option String
  max_results : Int
  chunks_per_source : Option Int
  include_images : Bool
  include_image_descriptions : Bool
  include_answer : BoolStr
  include_raw_content : BoolStr
  include_domains : Option (List String)
  exclude_domains : Option (List String)
  country : Option String
  timeout : Option Int
  include_favicon : Bool
deriving DecidableEq

def fixSuggestionText : String :=
  "Check the parameter requirements in the error message above"

/-- The dict returned by the tavily_search tool: the validation-error
payload or the orchestrator result. -/
inductive TavilySearchResult where
  | validationError (error : String) (error_type : String) (fix_suggestion : String)
  | robust (outcome : SearchOutcome)
deriving DecidableEq

/-- The error_type field of a tavily_search payload, when it is an error
payload produced before the upstream call. -/
def TavilySearchResult.errorType : TavilySearchResult → Option String
  | .validationError _ et _ => some et
  | .robust _ => none

/-- tavily_search from server.py: validation, same-date collapse,
normalization into the kwargs dict, then the robust orchestrator.  Also
returns the list of params dicts dispatched upstream. -/
def tavily_search (oracle : Nat → Except PyErr String) (a : TavilySearchArgs) :
    TavilySearchResult × List Kwargs :=
  match validate_search_params a.search_depth a.chunks_per_source a.max_results a.topic a.country with
  | some msg =>
    (.validationError ("Parameter validation error: " ++ msg) "ValidationError" fixSuggestionText, [])
  | none =>
    let collapse : Bool :=
      match a.start_date, a.end_date with
      | some s, some e => s != "" && e != "" && s == e
      | _, _ => false
    let start_date := if collapse then none else a.start_date
    let end_date := if collapse then none else a.end_date
    let days := if collapse then some 1 else a.days
    let search_params : Kwargs := {
      query := some a.query
      search_depth := some a.search_depth
      topic := some a.topic
      auto_parameters := some a.auto_parameters
      max_results := some a.max_results
      include_images := some a.include_images
      include_image_descriptions := some a.include_image_descriptions
      include_answer := some a.include_answer
      include_raw_content := some a.include_raw_content
      include_domains := some (a.include_domains.getD [])
      exclude_domains := some (a.exclude_domains.getD [])
      timeout := some a.timeout
      include_favicon := some a.include_favicon
      days := days
      time_range := a.time_range
      start_date := start_date
      end_date := end_date
      chunks_per_source := a.chunks_per_source
      country := a.country }
    let r := robust_tavily_search_with_fallback oracle search_params 2
    (.robust r.1, r.2)

/-- detailed_news_search from server.py: the news preset over
tavily_search, with the international-first country policy. -/
def detailed_news_search (oracle : Nat → Except PyErr String) (query : String)
    (days : Int) (max_results : Int) (country : Option String)
    (include_international_sources : Bool) : TavilySearchResult × List Kwargs :=
  let search_country := if include_international_sources then none else country
  tavily_search oracle {
    query := query
    search_depth := "advanced"
    topic := "news"
    auto_parameters := true
    days := some days
    time_range := none
    start_date := none
    end_date := none
    max_results := max_results
    chunks_per_source := none
    include_images := false
    include_image_descriptions := true
    include_answer := BoolStr.s "advanced"
    include_raw_content := BoolStr.s "markdown"
    include_domains := none
    exclude_domains := none
    country := search_country
    timeout := some 120
    include_favicon := true }

/-- The urls argument of tavily_extract: a single string or a list. -/
inductive UrlsArg where
  | one (s : String)
  | many (l : List String)
deriving DecidableEq

/-- The url_list normalization at the top of tavily_extract. -/
def urlListOf : UrlsArg → List String
  | .one s => [s]
  | .many l => l

/-- The per-entry URL test of tavily_extract: startswith http:// or
https://, expressed over the character list so that it evaluates by
kernel reduction. -/
def isHttpUrl (u : String) : Bool :=
  "http://".toList.isPrefixOf u.toList || "https://".toList.isPrefixOf u.toList

/-- Python: timeout or 60 (None and 0 are falsy). -/
def timeoutOr60 : Option Int → Int
  | none => 60
  | some t => if t = 0 then 60 else t

/-- One call to tavily_client.extract, with the kwargs it receives. -/
structure ExtractCall where
  urls : List String
  include_images : Bool
  extract_depth : String
  format : String
  timeout : Int
  include_favicon : Bool
deriving DecidableEq

/-- The dict tavily_client.extract answers with; the entries of the two
lists are kept abstract as strings. -/
structure ExtractResponse where
  results : List String
  failed_results : List String
deriving DecidableEq

def noValidUrlsText : String :=
  "No valid URLs provided. tavily_extract requires actual URLs (starting with http:// or https://)"

def extractHelpText : String :=
  "Use tavily_search first to get URLs, then extract content from those URLs"

def extractNoteText : String :=
  "Some URLs failed to extract. This is common with news sites that block crawlers or have paywalls."

def extractSuggestionText : String :=
  "Try using tavily_search with include_raw_content=True for better content access"

/-- The dict returned by the tavily_extract tool. -/
inductive ExtractResult where
  | invalidInput (error : String) (provided_input : UrlsArg) (help : String)
  | payload (results : List String) (failed_results : List String) (extraction_note : Option String)
  | extractError (error : String) (error_type : String) (valid_urls : List String) (suggestion : String)
deriving DecidableEq

/-- tavily_extract from server.py, together with the list of upstream
extract calls it dispatches. -/
def tavily_extract (oracle : ExtractCall → Except PyErr ExtractResponse) (urls : UrlsArg)
    (include_images : Bool) (extract_depth : String) (format : String)
    (timeout : Option Int) (include_favicon : Bool) : ExtractResult × List ExtractCall :=
  let url_list := urlListOf urls
  let valid_urls := url_list.filter isHttpUrl
  if valid_urls.isEmpty then
    (.invalidInput noValidUrlsText urls extractHelpText, [])
  else
    let call : ExtractCall :=
      { urls := valid_urls, include_images := include_images, extract_depth := extract_depth
        format := format, timeout := timeoutOr60 timeout, include_favicon := include_favicon }
    match oracle call with
    | .ok result =>
      if !result.results.isEmpty || !result.failed_results.isEmpty then
        if !result.failed_results.isEmpty then
          (.payload result.results result.failed_results (some extractNoteText), [call])
        else
          (.payload result.results result.failed_results none, [call])
      else
        (.payload result.results result.failed_results none, [call])
    | .error e =>
      (.extractError ("Tavily extract error: " ++ e.msg) e.ty valid_urls extractSuggestionText, [call])

/-- The kwargs of one tavily_client.crawl call. -/
structure CrawlArgs where
  url : String
  max_depth : Int
  max_breadth : Int
  limit : Int
  instructions : Option String
  select_paths : Option (List String)
  select_domains : Option (List String)
  exclude_paths : Option (List String)
  exclude_domains : Option (List String)
  allow_external : Bool
  include_images : Bool
  categories : Option (List String)
  extract_depth : String
deriving DecidableEq

/-- tavily_crawl from server.py: a bare passthrough to
tavily_client.crawl, with no exception handling, so a raised provider
error leaves the tool as an Except.error. -/
def tavily_crawl (crawlClient : CrawlArgs → Except PyErr String) (url : String)
    (max_depth : Int) (max_breadth : Int) (limit : Int) (instructions : Option String)
    (select_paths : Option (List String)) (select_domains : Option (List String))
    (exclude_paths : Option (List String)) (exclude_domains : Option (List String))
    (allow_external : Bool) (include_images : Bool) (categories : Option (List String))
    (extract_depth : String) : Except PyErr String :=
  crawlClient {
    url := url, max_depth := max_depth, max_breadth := max_breadth, limit := limit
    instructions := instructions, select_paths := select_paths
    select_domains := select_domains, exclude_paths := exclude_paths
    exclude_domains := exclude_domains, allow_external := allow_external
    include_images := include_images, categories := categories, extract_depth := extract_depth }

/-- The kwargs of one tavily_client.map call. -/
structure MapArgs where
  url : String
  max_depth : Int
  limit : Int
  instructions : Option String
deriving DecidableEq

/-- tavily_map from server.py: a bare passthrough to tavily_client.map
with no exception handling. -/
def tavily_map (mapClient : MapArgs → Except PyErr String) (url : String)
    (max_depth : Int) (limit : Int) (instructions : Option String) : Except PyErr String :=
  mapClient { url := url, max_depth := max_depth, limit := limit, instructions := instructions }

/-- The arguments of the web_search tool of app/server.py. -/
structure WebSearchArgs where
  query : String
  count : Int
  search_depth : String
  time_range : Option String
  include_domains : Option (List String)
  exclude_domains : Option (List String)
  include_images : Bool
deriving DecidableEq

/-- One raw result item of the Tavily HTTP response; every field may be
missing.  The score field is a JSON number, modelled as Int. -/
structure WebItem where
  title : Option String
  url : Option String
  content : Option String
  score : Option Int
  favicon : Option String
deriving DecidableEq

/-- The normalized result model of app/server.py. -/
structure SearchResult where
  title : String
  url : String
  snippet : Option String
  score : Option Int
  favicon : Option String
deriving DecidableEq

/-- What one httpx.post attempt does: a response with a status code and
an optional results list, or a raised httpx transport error. -/
inductive HttpAttempt where
  | resp (status : Nat) (results : Option (List WebItem))
  | netError (msg : String)
deriving DecidableEq

/-- The message of the httpx.HTTPStatusError raised by
raise_for_status; the exact text is produced inside httpx. -/
def statusErrText (status : Nat) : String :=
  "HTTP status error " ++ toString status

/-- The normalization of one raw item into a SearchResult. -/
def normalizeItem (it : WebItem) : SearchResult where
  title := it.title.getD ""
  url := it.url.getD ""
  snippet := some ((it.content.getD "").take 1000)
  score := some (it.score.getD 0)
  favicon := it.favicon

/-- The retry loop of web_search: three attempts; 401 and 429 raise a
RuntimeError that the except clause does not catch, a 4xx/5xx status or
a transport error is retried and re-raised as a RuntimeError on the last
attempt.  The fuel starts at 3 and is always 3 minus the attempt index,
so the fuel-0 equation is never reached. -/
def webLoop (maxResults : Nat) (http : Nat → HttpAttempt) :
    Nat → Nat → Except String (List SearchResult)
  | 0, _ => Except.error "Tavily request failed: "
  | fuel + 1, attempt =>
    match http attempt with
    | .resp 401 _ => Except.error "Tavily unauthorized (check TAVILY_API_KEY)"
    | .resp 429 _ => Except.error "Tavily rate limited (429)"
    | .resp status items =>
      if 400 ≤ status then
        if attempt < 2 then webLoop maxResults http fuel (attempt + 1)
        else Except.error ("Tavily request failed: " ++ statusErrText status)
      else
        Except.ok (((items.getD []).take maxResults).map normalizeItem)
    | .netError m =>
      if attempt < 2 then webLoop maxResults http fuel (attempt + 1)
      else Except.error ("Tavily request failed: " ++ m)

/-- web_search from app/server.py.  An Except.error models an exception
leaving the tool (RuntimeError on missing key, 401, 429, or retries
exhausted). -/
def web_search (apiKey : Option String) (http : Nat → HttpAttempt) (a : WebSearchArgs) :
    Except String (List SearchResult) :=
  match apiKey with
  | none => Except.error "TAVILY_API_KEY is not set"
  | some k =>
    if k = "" then Except.error "TAVILY_API_KEY is not set"
    else
      let maxResults := (max 1 (min a.count 10)).toNat
      webLoop maxResults http 3 0

/-- The three validation constraints as the spec states them, for
comparison with validate_search_params. -/
def violatesConstraints (search_depth : String) (chunks_per_source : Option Int)
    (max_results : Int) (topic : String) (country : Option String) : Bool :=
  (max_results < 0 || max_results > 20) ||
  (match chunks_per_source with
   | some c => search_depth != "advanced" || c < 1 || c > 3
   | none => false) ||
  (country.isSome && topic != "general")

/-- A provider that always answers a fixed payload. -/
def okOracle : Nat → Except PyErr String := fun _ => Except.ok "payload"

/-- A params dict holding only a query, as a sample orchestrator input. -/
def sampleKwargs : Kwargs where
  query := some "lean theorem provers"
  search_depth := none
  topic := none
  auto_parameters := none
  max_results := none
  include_images := none
  include_image_descriptions := none
  include_answer := none
  include_raw_content := none
  include_domains := none
  exclude_domains := none
  timeout := none
  include_favicon := none
  days := none
  time_range := none
  start_date := none
  end_date := none
  chunks_per_source := none
  country := none

/-- A tavily_search argument list that passes validation. -/
def goodArgs : TavilySearchArgs where
  query := "lean theorem provers"
  search_depth := "basic"
  topic := "general"
  auto_parameters := false
  days := none
  time_range := none
  start_date := none
  end_date := none
  max_results := 5
  chunks_per_source := none
  include_images := false
  include_image_descriptions := false
  include_answer := BoolStr.b false
  include_raw_content := BoolStr.b false
  include_domains := none
  exclude_domains := none
  country := none
  timeout := none
  include_favicon := false

/-- goodArgs with an out-of-range max_results. -/
def badArgs : TavilySearchArgs := { goodArgs with max_results := 25 }

/-- goodArgs with both explicit dates supplied, equal and empty. -/
def emptyDateArgs : TavilySearchArgs :=
  { goodArgs with start_date := some "", end_date := some "" }

/-- goodArgs with both explicit dates supplied, equal and non-empty. -/
def sameDateArgs : TavilySearchArgs :=
  { goodArgs with start_date := some "2024-01-01", end_date := some "2024-01-01" }

/-! Helper lemmas about the orchestrator loop and the parameter dicts. -/

lemma fallback_country (sp : Kwargs) :
    (create_fallback_search_params sp).country = sp.country := by
  unfold create_fallback_search_params
  dsimp only
  split <;> split <;> rfl

lemma resolveTimeout_country (sp : Kwargs) :
    (resolveTimeout sp).country = sp.country := by
  unfold resolveTimeout
  dsimp only
  split <;> rfl

lemma resolveTimeout_start_date (sp : Kwargs) :
    (resolveTimeout sp).start_date = sp.start_date := by
  unfold resolveTimeout
  dsimp only
  split <;> rfl

lemma resolveTimeout_end_date (sp : Kwargs) :
    (resolveTimeout sp).end_date = sp.end_date := by
  unfold resolveTimeout
  dsimp only
  split <;> rfl

lemma resolveTimeout_days (sp : Kwargs) :
    (resolveTimeout sp).days = sp.days := by
  unfold resolveTimeout
  dsimp only
  split <;> rfl

lemma rungParams_country (sp : Kwargs) (h : sp.country = none) (n : Nat) :
    (rungParams sp n).country = none := by
  match n with
  | 0 => exact h
  | 1 => rw [rungParams, fallback_country]; exact h
  | n + 2 => rfl

lemma robustLoop_trace_grows (oracle : Nat → Except PyErr String) (sp : Kwargs)
    (m : Nat) : ∀ (fuel attempt : Nat) (lastErr : Option PyErr) (tr : List Kwargs),
    tr <+: (robustLoop oracle sp m fuel attempt lastErr tr).2 := by
  intro fuel
  induction fuel with
  | zero => intro attempt lastErr tr; exact ⟨[], List.append_nil tr⟩
  | succ fuel ih =>
    intro attempt lastErr tr
    simp only [robustLoop]
    split
    · split_ifs <;> exact ⟨_, rfl⟩
    · split_ifs with hq
      · exact ⟨_, rfl⟩
      · exact List.IsPrefix.trans ⟨[rungParams sp attempt], rfl⟩ (ih _ _ _)

lemma robustLoop_trace_len (oracle : Nat → Except PyErr String) (sp : Kwargs)
    (m : Nat) : ∀ (fuel attempt : Nat) (lastErr : Option PyErr) (tr : List Kwargs),
    ((robustLoop oracle sp m fuel attempt lastErr tr).2).length ≤ tr.length + fuel := by
  intro fuel
  induction fuel with
  | zero => intro attempt lastErr tr; simp [robustLoop]
  | succ fuel ih =>
    intro attempt lastErr tr
    simp only [robustLoop]
    split
    · split_ifs <;> simp
    · split_ifs with hq
      · simp
      · refine le_trans (ih (attempt + 1) _ (tr ++ [rungParams sp attempt])) ?_
        simp
        omega

lemma robustLoop_country_all (oracle : Nat → Except PyErr String) (sp : Kwargs)
    (m : Nat) (hsp : sp.country = none) :
    ∀ (fuel attempt : Nat) (lastErr : Option PyErr) (tr : List Kwargs),
    (tr.all fun kw => kw.country.isNone) = true →
    (((robustLoop oracle sp m fuel attempt lastErr tr).2).all fun kw => kw.country.isNone) = true := by
  intro fuel
  induction fuel with
  | zero => intro attempt lastErr tr htr; simpa [robustLoop] using htr
  | succ fuel ih =>
    intro attempt lastErr tr htr
    have htr' : ((tr ++ [rungParams sp attempt]).all fun kw => kw.country.isNone) = true := by
      simp_all [rungParams_country sp hsp attempt]
    simp only [robustLoop]
    split
    · split_ifs <;> exact htr'
    · split_ifs with hq
      · exact htr'
      · exact ih _ _ _ htr'

lemma robustLoop_trace_head (oracle : Nat → Except PyErr String) (sp : Kwargs)
    (m fuel attempt : Nat) (lastErr : Option PyErr) (a : Kwargs) (tr : List Kwargs) :
    ((robustLoop oracle sp m fuel attempt lastErr (a :: tr)).2).head? = some a := by
  obtain ⟨t, ht⟩ := robustLoop_trace_grows oracle sp m fuel attempt lastErr (a :: tr)
  rw [← ht]
  rfl

lemma robust_trace_head (oracle : Nat → Except PyErr String) (sp : Kwargs) (m : Nat) :
    ((robust_tavily_search_with_fallback oracle sp m).2).head? = some (resolveTimeout sp) := by
  unfold robust_tavily_search_with_fallback
  simp only [robustLoop]
  split
  · split_ifs <;> simp [rungParams]
  · split_ifs with hq
    · simp [rungParams]
    · simpa [rungParams] using
        robustLoop_trace_head oracle (resolveTimeout sp) m m (0 + 1) _ (resolveTimeout sp) []

lemma robust_trace_ne_nil (oracle : Nat → Except PyErr String) (sp : Kwargs) (m : Nat) :
    (robust_tavily_search_with_fallback oracle sp m).2 ≠ [] := by
  intro hnil
  have := robust_trace_head oracle sp m
  rw [hnil] at this
  exact Option.noConfusion this

lemma validate_isSome (search_depth : String) (chunks_per_source : Option Int)
    (max_results : Int) (topic : String) (country : Option String) :
    (validate_search_params search_depth chunks_per_source max_results topic country).isSome
      = violatesConstraints search_depth chunks_per_source max_results topic country := by
  unfold validate_search_params violatesConstraints
  cases chunks_per_source <;> cases country <;>
    simp only [Option.isSome] <;> split_ifs <;> simp_all

/-! Claim theorems. -/

/-- Claim C1, counterexample: at search_depth advanced, auto_parameters
on, raw content truthy and result_count 16 the estimated timeout is 145,
not the 155 the claim asserts — the result-count bonus applied for
counts above 15 is +15, because the branch for counts above 10 matches
first and the elif branch for counts above 15 is unreachable. -/
theorem timeout_result_count_16_counterexample :
    calculate_optimal_timeout "advanced" (BoolStr.b true) 16 true = 145
    ∧ calculate_optimal_timeout "advanced" (BoolStr.b true) 16 true ≠ 155 := by
  constructor <;> decide

/-- Claim C1, amended: for every result_count above 15 the applied
result-count bonus equals the bonus applied at result_count 11, namely
+15, and the spec example evaluates to min(60+30+20+20+15, 180) = 145. -/
theorem timeout_result_count_bonus_amended :
    (∀ (sd : String) (rc : BoolStr) (ap : Bool) (mr : Int), mr > 15 →
      calculate_optimal_timeout sd rc mr ap = calculate_optimal_timeout sd rc 11 ap)
    ∧ calculate_optimal_timeout "advanced" (BoolStr.b true) 16 true = 145 := by
  constructor
  · intro sd rc ap mr h
    unfold calculate_optimal_timeout
    have h10 : mr > 10 := by omega
    have h11 : (11 : Int) > 10 := by norm_num
    simp only [if_pos h10, if_pos h11]
  · decide

/-- Claim C1, witness for the amended theorem at result_count 16. -/
theorem timeout_result_count_bonus_amended_witness :
    calculate_optimal_timeout "advanced" (BoolStr.b true) 16 true
      = calculate_optimal_timeout "advanced" (BoolStr.b true) 11 true :=
  timeout_result_count_bonus_amended.1 "advanced" (BoolStr.b true) true 16 (by norm_num)

/-- Claim C3: when the upstream call of any reached attempt raises an
error whose lowercased message holds a credit/quota/limit/billing
keyword, the orchestrator loop returns the structured QuotaExceeded
payload at once, dispatching no further upstream call beyond that
attempt; in particular a quota-classified primary failure ends the whole
orchestrator after exactly one upstream call. -/
theorem quota_short_circuit :
    (∀ (oracle : Nat → Except PyErr String) (sp : Kwargs) (maxR fuel attempt : Nat)
      (lastErr : Option PyErr) (tr : List Kwargs) (e : PyErr),
      oracle attempt = Except.error e → isQuotaError e = true →
      robustLoop oracle sp maxR (fuel + 1) attempt lastErr tr
        = (SearchOutcome.quota ("API quota/credit limit reached: " ++ e.msg) "QuotaExceeded"
            quotaSuggestionText quotaFallbackText, tr ++ [rungParams sp attempt]))
    ∧ (∀ (oracle : Nat → Except PyErr String) (sp : Kwargs) (e : PyErr),
      oracle 0 = Except.error e → isQuotaError e = true →
      robust_tavily_search_with_fallback oracle sp 2
        = (SearchOutcome.quota ("API quota/credit limit reached: " ++ e.msg) "QuotaExceeded"
            quotaSuggestionText quotaFallbackText, [resolveTimeout sp])) := by
  constructor
  · intro oracle sp maxR fuel attempt lastErr tr e h hq
    simp [robustLoop, h, hq]
  · intro oracle sp e h hq
    simp [robust_tavily_search_with_fallback, robustLoop, h, hq, rungParams]

/-- Claim C3, witness: a quota-classified primary error on a concrete
params dict returns the QuotaExceeded payload after one dispatch. -/
theorem quota_short_circuit_witness :
    robust_tavily_search_with_fallback
      (fun _ => Except.error ⟨"UsageLimitExceededError", "Your account has run out of credits"⟩)
      sampleKwargs 2
      = (SearchOutcome.quota ("API quota/credit limit reached: " ++ "Your account has run out of credits")
          "QuotaExceeded" quotaSuggestionText quotaFallbackText, [resolveTimeout sampleKwargs]) :=
  quota_short_circuit.2 _ sampleKwargs ⟨"UsageLimitExceededError", "Your account has run out of credits"⟩
    rfl (by decide)

/-- Claim C4: whenever one of the three parameter constraints is
violated, tavily_search answers the structured ValidationError payload
and dispatches nothing upstream; whenever all three hold, validation
passes and the request proceeds to the orchestrator with at least one
upstream dispatch. -/
theorem tavily_search_validation_gate :
    ∀ (oracle : Nat → Except PyErr String) (a : TavilySearchArgs),
      (violatesConstraints a.search_depth a.chunks_per_source a.max_results a.topic a.country = true →
        (tavily_search oracle a).2 = []
        ∧ (tavily_search oracle a).1.errorType = some "ValidationError")
      ∧ (violatesConstraints a.search_depth a.chunks_per_source a.max_results a.topic a.country = false →
        validate_search_params a.search_depth a.chunks_per_source a.max_results a.topic a.country = none
        ∧ (tavily_search oracle a).2 ≠ []
        ∧ (tavily_search oracle a).1.errorType = none) := by
  intro oracle a
  have hv := validate_isSome a.search_depth a.chunks_per_source a.max_results a.topic a.country
  cases hval : validate_search_params a.search_depth a.chunks_per_source a.max_results a.topic a.country with
  | some msg =>
    rw [hval] at hv
    constructor
    · intro _
      simp [tavily_search, hval, TavilySearchResult.errorType]
    · intro hfalse
      rw [hfalse] at hv
      simp at hv
  | none =>
    rw [hval] at hv
    constructor
    · intro htrue
      rw [htrue] at hv
      simp at hv
    · intro _
      refine ⟨rfl, ?_, ?_⟩
      · simp only [tavily_search, hval]
        exact robust_trace_ne_nil oracle _ 2
      · simp [tavily_search, hval, TavilySearchResult.errorType]

/-- Claim C4, witness: max_results 25 is rejected with no dispatch, and
the same arguments with max_results 5 pass validation and reach the
provider. -/
theorem tavily_search_validation_gate_witness :
    ((tavily_search okOracle badArgs).2 = []
      ∧ (tavily_search okOracle badArgs).1.errorType = some "ValidationError")
    ∧ (validate_search_params goodArgs.search_depth goodArgs.chunks_per_source
        goodArgs.max_results goodArgs.topic goodArgs.country = none
      ∧ (tavily_search okOracle goodArgs).2 ≠ []
      ∧ (tavily_search okOracle goodArgs).1.errorType = none) :=
  ⟨(tavily_search_validation_gate okOracle badArgs).1 (by decide),
   (tavily_search_validation_gate okOracle goodArgs).2 (by decide)⟩

/-- Claim C9: with include_international_sources off and a country
supplied, detailed_news_search always answers a ValidationError payload
and never reaches the upstream provider, because its preset fixes
topic news while the validator demands topic general whenever country
is set. -/
theorem news_country_unreachable :
    ∀ (oracle : Nat → Except PyErr String) (q : String) (d mr : Int) (c : String),
      (detailed_news_search oracle q d mr (some c) false).2 = []
      ∧ (detailed_news_search oracle q d mr (some c) false).1.errorType = some "ValidationError" := by
  intro oracle q d mr c
  unfold detailed_news_search
  cases hval : validate_search_params "advanced" none mr "news" (some c) with
  | some msg => simp [tavily_search, hval, TavilySearchResult.errorType]
  | none =>
    exfalso
    unfold validate_search_params at hval
    split_ifs at hval
    simp_all

lemma tavily_search_country_all (oracle : Nat → Except PyErr String)
    (a : TavilySearchArgs) (h : a.country = none) :
    (((tavily_search oracle a).2).all fun kw => kw.country.isNone) = true := by
  cases hval : validate_search_params a.search_depth a.chunks_per_source a.max_results a.topic a.country with
  | some msg => simp [tavily_search, hval]
  | none =>
    simp only [tavily_search, hval]
    unfold robust_tavily_search_with_fallback
    apply robustLoop_country_all
    · rw [resolveTimeout_country]
      exact h
    · rfl

/-- Claim C8: with include_international_sources on, every params dict
detailed_news_search dispatches upstream carries no country key, even
when a country argument is supplied. -/
theorem news_international_drops_country :
    ∀ (oracle : Nat → Except PyErr String) (q : String) (d mr : Int) (co : Option String),
      (((detailed_news_search oracle q d mr co true).2).all fun kw => kw.country.isNone) = true := by
  intro oracle q d mr co
  unfold detailed_news_search
  refine tavily_search_country_all oracle _ ?_
  simp

/-- A provider on which every attempt raises a read timeout. -/
def failOracle : Nat → Except PyErr String :=
  fun _ => Except.error ⟨"ReadTimeout", "request timed out"⟩

/-- Claim C5, counterexample: when the primary and the reduced rung fail
with different messages and the minimal rung succeeds, the payload is
tagged with the error of the reduced rung, not with the original
primary-rung error the claim asserts. -/
theorem fallback_original_error_counterexample :
    (robust_tavily_search_with_fallback
      (fun n => if n = 0 then Except.error ⟨"ReadTimeout", "request timed out alpha"⟩
                else if n = 1 then Except.error ⟨"ReadTimeout", "request timed out beta"⟩
                else Except.ok "results") sampleKwargs 2).1
      = SearchOutcome.ok "results" (some "minimal_search") (some "request timed out beta")
    ∧ "request timed out beta" ≠ "request timed out alpha" := by
  constructor <;> decide

/-- Claim C5, amended: the ladder makes at most 3 upstream attempts in
order original, reduced-complexity (basic depth, auto-parameters off,
max_results capped at 5, chunks_per_source removed, truthy raw content
downgraded to False, advanced answer downgraded to basic), then the
minimal dict of exactly query, basic depth, 3 results and a 30s timeout;
a success at a non-primary rung is tagged with the fallback tier used
and with the most recent preceding error (for the reduced rung the
primary error, for the minimal rung the error of the reduced rung), and
exhausting all rungs yields the structured failure reporting
attempts = 3. -/
theorem fallback_ladder_amended :
    (∀ (oracle : Nat → Except PyErr String) (sp : Kwargs),
      ((robust_tavily_search_with_fallback oracle sp 2).2).length ≤ 3)
    ∧ (∀ sp : Kwargs,
        (create_fallback_search_params sp).search_depth = some "basic"
        ∧ (create_fallback_search_params sp).auto_parameters = some false
        ∧ (create_fallback_search_params sp).max_results = some (min (sp.max_results.getD 5) 5)
        ∧ (create_fallback_search_params sp).chunks_per_source = none
        ∧ ((sp.include_raw_content.getD (BoolStr.b false)).truthy = true →
            (create_fallback_search_params sp).include_raw_content = some (BoolStr.b false))
        ∧ (sp.include_answer = some (BoolStr.s "advanced") →
            (create_fallback_search_params sp).include_answer = some (BoolStr.s "basic")))
    ∧ (∀ sp : Kwargs,
        minimalSearchParams sp
          = ⟨sp.query, some "basic", none, none, some 3, none, none, none, none, none, none,
             some (some 30), none, none, none, none, none, none, none⟩)
    ∧ (∀ (oracle : Nat → Except PyErr String) (sp : Kwargs) (e0 : PyErr) (p : String),
        oracle 0 = Except.error e0 → isQuotaError e0 = false → oracle 1 = Except.ok p →
        robust_tavily_search_with_fallback oracle sp 2
          = (SearchOutcome.ok p (some "reduced_complexity") (some e0.msg),
             [resolveTimeout sp, create_fallback_search_params (resolveTimeout sp)]))
    ∧ (∀ (oracle : Nat → Except PyErr String) (sp : Kwargs) (e0 e1 : PyErr) (p : String),
        oracle 0 = Except.error e0 → isQuotaError e0 = false →
        oracle 1 = Except.error e1 → isQuotaError e1 = false →
        oracle 2 = Except.ok p →
        robust_tavily_search_with_fallback oracle sp 2
          = (SearchOutcome.ok p (some "minimal_search") (some e1.msg),
             [resolveTimeout sp, create_fallback_search_params (resolveTimeout sp),
              minimalSearchParams (resolveTimeout sp)]))
    ∧ (∀ (oracle : Nat → Except PyErr String) (sp : Kwargs) (e0 e1 e2 : PyErr),
        oracle 0 = Except.error e0 → isQuotaError e0 = false →
        oracle 1 = Except.error e1 → isQuotaError e1 = false →
        oracle 2 = Except.error e2 → isQuotaError e2 = false →
        robust_tavily_search_with_fallback oracle sp 2
          = (SearchOutcome.failed ("All search attempts failed: " ++ e2.msg) e2.ty 3
              failSuggestionText,
             [resolveTimeout sp, create_fallback_search_params (resolveTimeout sp),
              minimalSearchParams (resolveTimeout sp)])) := by
  refine ⟨?_, ?_, ?_, ?_, ?_, ?_⟩
  · intro oracle sp
    unfold robust_tavily_search_with_fallback
    simpa using robustLoop_trace_len oracle (resolveTimeout sp) 2 (2 + 1) 0 none []
  · intro sp
    refine ⟨?_, ?_, ?_, ?_, ?_, ?_⟩ <;>
      (try intro h) <;> unfold create_fallback_search_params <;> dsimp only <;>
      split_ifs <;> simp_all
  · intro sp
    rfl
  · intro oracle sp e0 p h0 hq0 h1
    simp [robust_tavily_search_with_fallback, robustLoop, h0, hq0, h1, rungParams, lastErrorStr]
  · intro oracle sp e0 e1 p h0 hq0 h1 hq1 h2
    simp [robust_tavily_search_with_fallback, robustLoop, h0, hq0, h1, hq1, h2, rungParams,
      lastErrorStr]
  · intro oracle sp e0 e1 e2 h0 hq0 h1 hq1 h2 hq2
    simp [robust_tavily_search_with_fallback, robustLoop, h0, hq0, h1, hq1, h2, hq2, rungParams,
      lastErrorStr, lastErrorTy]

/-- Claim C5, witness: three timeout failures on a concrete params dict
exhaust the ladder with attempts = 3 and the three rungs dispatched in
order. -/
theorem fallback_ladder_amended_witness :
    robust_tavily_search_with_fallback failOracle sampleKwargs 2
      = (SearchOutcome.failed ("All search attempts failed: " ++ "request timed out")
          "ReadTimeout" 3 failSuggestionText,
         [resolveTimeout sampleKwargs, create_fallback_search_params (resolveTimeout sampleKwargs),
          minimalSearchParams (resolveTimeout sampleKwargs)]) :=
  fallback_ladder_amended.2.2.2.2.2 failOracle sampleKwargs
    ⟨"ReadTimeout", "request timed out"⟩ ⟨"ReadTimeout", "request timed out"⟩
    ⟨"ReadTimeout", "request timed out"⟩ rfl (by decide) rfl (by decide) rfl (by decide)

/-- Claim C6, counterexample: with start_date and end_date both supplied
as the equal (empty) string, the normalized upstream request still
carries both date fields and no days field — Python truthiness skips the
collapse — contradicting the claim that any supplied equal pair
collapses to days = 1. -/
theorem same_date_collapse_counterexample :
    (((tavily_search okOracle emptyDateArgs).2.head?).map
        fun kw => (kw.start_date, kw.end_date, kw.days))
      = some (some "", some "", none)
    ∧ (((tavily_search okOracle emptyDateArgs).2.head?).map
        fun kw => (kw.start_date, kw.end_date, kw.days))
      ≠ some (none, none, some 1) := by
  constructor <;> decide

/-- Claim C6, amended: when start_date and end_date are both supplied,
non-empty and equal, the normalized upstream request carries no
start_date and no end_date field and carries days = 1. -/
theorem same_date_collapse_amended :
    ∀ (oracle : Nat → Except PyErr String) (a : TavilySearchArgs) (s : String),
      a.start_date = some s → a.end_date = some s → s ≠ "" →
      violatesConstraints a.search_depth a.chunks_per_source a.max_results a.topic a.country = false →
      (((tavily_search oracle a).2.head?).map
          fun kw => (kw.start_date, kw.end_date, kw.days))
        = some (none, none, some 1) := by
  intro oracle a s hs he hne hv
  have hval : validate_search_params a.search_depth a.chunks_per_source a.max_results a.topic a.country = none := by
    have hiso := validate_isSome a.search_depth a.chunks_per_source a.max_results a.topic a.country
    rw [hv] at hiso
    exact Option.not_isSome_iff_eq_none.mp (by simp [hiso])
  have hsne : (s != "") = true := by simpa using hne
  simp only [tavily_search, hval, hs, he, hsne, beq_self_eq_true, Bool.and_self, Bool.true_and,
    if_true]
  rw [robust_trace_head]
  simp [resolveTimeout_start_date, resolveTimeout_end_date, resolveTimeout_days]

/-- Claim C6, witness for the amended theorem at the date pair of the
spec example. -/
theorem same_date_collapse_amended_witness :
    (((tavily_search okOracle sameDateArgs).2.head?).map
        fun kw => (kw.start_date, kw.end_date, kw.days))
      = some (none, none, some 1) :=
  same_date_collapse_amended okOracle sameDateArgs "2024-01-01" rfl rfl (by decide) (by decide)

/-- Claim C7: when no input string is an absolute http or https URL,
tavily_extract answers the validation-rejection payload that echoes the
offending inputs, and dispatches zero upstream extract calls. -/
theorem extract_no_valid_urls :
    ∀ (oracle : ExtractCall → Except PyErr ExtractResponse) (urls : UrlsArg)
      (ii : Bool) (ed fmt : String) (t : Option Int) (ifa : Bool),
      ((urlListOf urls).all fun u => !(isHttpUrl u)) = true →
      tavily_extract oracle urls ii ed fmt t ifa
        = (ExtractResult.invalidInput noValidUrlsText urls extractHelpText, []) := by
  intro oracle urls ii ed fmt t ifa h
  have hfil : (urlListOf urls).filter isHttpUrl = [] := by
    rw [List.filter_eq_nil_iff]
    intro u hu
    simpa using List.all_eq_true.mp h u hu
  simp [tavily_extract, hfil]

/-- Claim C7, witness: the spec example with two non-URL inputs. -/
theorem extract_no_valid_urls_witness :
    tavily_extract (fun _ => Except.ok ⟨[], []⟩) (UrlsArg.many ["not-a-url", "ftp://x"])
        false "basic" "markdown" none false
      = (ExtractResult.invalidInput noValidUrlsText (UrlsArg.many ["not-a-url", "ftp://x"])
          extractHelpText, []) :=
  extract_no_valid_urls _ _ _ _ _ _ _ (by decide)

/-- Claim C10: when the input list holds at least one valid http(s) URL
and at least one invalid entry, the invalid entries are silently
discarded — the call behaves exactly as if only the valid URLs had been
passed, the single upstream dispatch carries exactly the valid URLs, and
the returned payload therefore mentions nothing about the discarded
inputs. -/
theorem extract_mixed_inputs_discard :
    ∀ (oracle : ExtractCall → Except PyErr ExtractResponse) (l : List String)
      (ii : Bool) (ed fmt : String) (t : Option Int) (ifa : Bool),
      (∃ u ∈ l, isHttpUrl u = false) →
      l.filter isHttpUrl ≠ [] →
      tavily_extract oracle (UrlsArg.many l) ii ed fmt t ifa
          = tavily_extract oracle (UrlsArg.many (l.filter isHttpUrl)) ii ed fmt t ifa
      ∧ (tavily_extract oracle (UrlsArg.many l) ii ed fmt t ifa).2
          = [{ urls := l.filter isHttpUrl, include_images := ii, extract_depth := ed
               format := fmt, timeout := timeoutOr60 t, include_favicon := ifa }] := by
  intro oracle l ii ed fmt t ifa hmix hne
  have hfil : (l.filter isHttpUrl).filter isHttpUrl = l.filter isHttpUrl :=
    List.filter_eq_self.mpr fun u hu => (List.mem_filter.mp hu).2
  have hemp : (l.filter isHttpUrl).isEmpty = false := by
    simpa [List.isEmpty_iff] using hne
  constructor
  · simp [tavily_extract, urlListOf, hfil, hemp]
  · simp only [tavily_extract, urlListOf, hfil, hemp, Bool.false_eq_true, if_false]
    cases oracle { urls := l.filter isHttpUrl, include_images := ii, extract_depth := ed
                   format := fmt, timeout := timeoutOr60 t, include_favicon := ifa } with
    | ok r =>
      dsimp only
      split_ifs <;> rfl
    | error e => rfl

/-- Claim C10, witness: one valid URL next to one junk entry. -/
theorem extract_mixed_inputs_discard_witness :
    tavily_extract (fun _ => Except.ok ⟨["content-a"], []⟩)
        (UrlsArg.many ["https://a.example/page", "not-a-url"]) false "basic" "markdown" none false
      = tavily_extract (fun _ => Except.ok ⟨["content-a"], []⟩)
          (UrlsArg.many (["https://a.example/page", "not-a-url"].filter isHttpUrl))
          false "basic" "markdown" none false
    ∧ (tavily_extract (fun _ => Except.ok ⟨["content-a"], []⟩)
        (UrlsArg.many ["https://a.example/page", "not-a-url"]) false "basic" "markdown"
        none false).2
      = [{ urls := ["https://a.example/page", "not-a-url"].filter isHttpUrl
           include_images := false, extract_depth := "basic", format := "markdown"
           timeout := timeoutOr60 none, include_favicon := false }] :=
  extract_mixed_inputs_discard (fun _ => Except.ok ⟨["content-a"], []⟩)
    ["https://a.example/page", "not-a-url"] false "basic" "markdown" none false
    (by decide) (by decide)

/-- Claim C2, counterexample: tavily_crawl, tavily_map and web_search
have no exception handling, so a provider failure terminates the call
abnormally (an Except.error leaves the tool) instead of producing a
structured payload, contradicting the claim that every exposed operation
never propagates an unhandled exception. -/
theorem crawl_map_web_propagation_counterexample :
    tavily_crawl (fun _ => Except.error ⟨"ConnectError", "connection refused"⟩)
        "https://site.example" 1 20 50 none none none none none true false none "basic"
      = Except.error ⟨"ConnectError", "connection refused"⟩
    ∧ tavily_map (fun _ => Except.error ⟨"ConnectError", "connection refused"⟩)
        "https://site.example" 2 30 none
      = Except.error ⟨"ConnectError", "connection refused"⟩
    ∧ web_search (some "key") (fun _ => HttpAttempt.netError "connection refused")
        ⟨"q", 5, "basic", none, none, none, false⟩
      = Except.error "Tavily request failed: connection refused" := by
  refine ⟨rfl, rfl, ?_⟩
  rfl

/-- Claim C2, amended: tavily_search contains every provider failure —
even a provider that raises on all attempts yields one of the structured
payloads (ValidationError, QuotaExceeded, or the attempts = 3 failure) —
but tavily_crawl, tavily_map and web_search have no exception handling
and propagate the upstream failure to the caller. -/
theorem error_containment_amended :
    (∀ (url : String) (md mb lim : Int) (ins : Option String)
      (sp sd ep exd : Option (List String)) (ae ii : Bool) (cat : Option (List String))
      (exdep : String) (e : PyErr),
      tavily_crawl (fun _ => Except.error e) url md mb lim ins sp sd ep exd ae ii cat exdep
        = Except.error e)
    ∧ (∀ (url : String) (md lim : Int) (ins : Option String) (e : PyErr),
      tavily_map (fun _ => Except.error e) url md lim ins = Except.error e)
    ∧ (∀ (a : WebSearchArgs) (m : String),
      web_search (some "valid-key") (fun _ => HttpAttempt.netError m) a
        = Except.error ("Tavily request failed: " ++ m))
    ∧ (∀ (a : TavilySearchArgs) (e : PyErr),
      (tavily_search (fun _ => Except.error e) a).1.errorType = some "ValidationError"
      ∨ (tavily_search (fun _ => Except.error e) a).1
          = .robust (.quota ("API quota/credit limit reached: " ++ e.msg) "QuotaExceeded"
              quotaSuggestionText quotaFallbackText)
      ∨ (tavily_search (fun _ => Except.error e) a).1
          = .robust (.failed ("All search attempts failed: " ++ e.msg) e.ty 3
              failSuggestionText)) := by
  refine ⟨fun _ _ _ _ _ _ _ _ _ _ _ _ _ _ => rfl, fun _ _ _ _ _ => rfl, ?_, ?_⟩
  · intro a m
    simp [web_search, webLoop]
  · intro a e
    cases hval : validate_search_params a.search_depth a.chunks_per_source a.max_results a.topic a.country with
    | some msg =>
      left
      simp [tavily_search, hval, TavilySearchResult.errorType]
    | none =>
      by_cases hq : isQuotaError e = true
      · right; left
        simp [tavily_search, hval, robust_tavily_search_with_fallback, robustLoop, hq]
      · right; right
        simp [tavily_search, hval, robust_tavily_search_with_fallback, robustLoop, hq,
          lastErrorStr, lastErrorTy]
